import Mathlib

/-! TLS version and cipher-suite prober (`main.go`)

A shallow embedding of the two single-capability probers
(`doesServerSupportTLSVersion`, `doesServerSupportCipherForTLSOneDotTwo`) and
of the two scanners that drive them
(`determineServerSupportedTLSVersions`,
`determineServerSupportedCipherSuitesForTLSOneDotTwo`).

The program is stateful only through its collaborators: `tls.Dial`,
`(*tls.Conn).Close` and `fmt.Printf`.  They are modelled by explicit state
passing: the network is an abstract state `σ` transformed by `Env.Dial` and
`Env.Close`, and every call of a collaborator made by the program is recorded,
in program order, in a list of `Event`s.  `uint16` identifiers are natural
numbers; the program only compares them for equality.
-/

namespace TLSProbe

/-! ## Data model -/

/-- A non-nil Go `error` value.  `external` is an error produced by a
collaborator (the tag stands for the dynamic value behind the interface, so two
different errors may carry the same text); `errorf` is a value built by
`fmt.Errorf` inside this program. -/
inductive GoError where
  | external (tag : Nat) (msg : String)
  | errorf (msg : String)
  deriving DecidableEq, Repr

/-- The method `err.Error()`. -/
def GoError.Error : GoError → String
  | .external _ msg => msg
  | .errorf msg => msg

/-- The two fields of `tls.ConnectionState` that the program reads. -/
structure ConnectionState where
  Version : Nat
  CipherSuite : Nat
  deriving DecidableEq, Repr

/-- A non-nil `*tls.Conn`: an identity and the state its handshake negotiated. -/
structure Conn where
  id : Nat
  state : ConnectionState
  deriving DecidableEq, Repr

/-- The method `conn.ConnectionState()`. -/
def Conn.ConnectionState (conn : Conn) : ConnectionState := conn.state

/-- The fields of `tls.Config` that the program sets; `CipherSuites = []` is the
nil slice of a config that does not set the field. -/
structure Config where
  MinVersion : Nat
  MaxVersion : Nat
  CipherSuites : List Nat
  InsecureSkipVerify : Bool
  deriving DecidableEq, Repr

/-- What `tls.Dial` returns, a pair `(conn, err)`.  `connected conn` is
`(conn, nil)`; `failed conn err` is `(conn, err)` with `err` non-nil, where
`conn` may be nil (`none`) or not.  `tls.Dial` never returns `(nil, nil)`, so
the type has no such value and `conn.ConnectionState()`, reached only when
`err == nil`, always has a connection to read. -/
inductive DialResult where
  | connected (conn : Conn)
  | failed (conn : Option Conn) (err : GoError)
  deriving DecidableEq, Repr

/-- First component of the pair returned by `tls.Dial`. -/
def DialResult.conn : DialResult → Option Conn
  | .connected conn => some conn
  | .failed conn _ => conn

/-- Second component of the pair returned by `tls.Dial`. -/
def DialResult.err : DialResult → Option GoError
  | .connected _ => none
  | .failed _ err => some err

/-- A call of a collaborator, as made by the program. -/
inductive Event where
  | dial (network address : String) (config : Config) (result : DialResult)
  | close (conn : Conn)
  | printf (out : String)
  deriving DecidableEq, Repr

/-- The collaborators from `crypto/tls` and `fmt`, over a network state `σ`. -/
structure Env (σ : Type) where
  /-- Function `tls.Dial(network, addr, config)`. -/
  Dial : σ → String → String → Config → DialResult × σ
  /-- Method `conn.Close()`; the program discards the error it returns. -/
  Close : σ → Conn → σ
  /-- Function `tls.VersionName`. -/
  VersionName : Nat → String
  /-- Function `tls.CipherSuiteName`. -/
  CipherSuiteName : Nat → String
  /-- The verb `%q` of `fmt` applied to a string. -/
  quote : String → String
  /-- The `ID`s of `tls.CipherSuites()`, in order. -/
  CipherSuites : List Nat
  /-- The `ID`s of `tls.InsecureCipherSuites()`, in order. -/
  InsecureCipherSuites : List Nat

/-- The result of running a function of the program from a network state: the
value it returns, the network state it leaves and the collaborator calls it
made, oldest first. -/
structure Run (σ α : Type) where
  ret : α
  net : σ
  trace : List Event

/-- Constant `tls.VersionTLS10`. -/
def VersionTLS10 : Nat := 0x0301
/-- Constant `tls.VersionTLS11`. -/
def VersionTLS11 : Nat := 0x0302
/-- Constant `tls.VersionTLS12`. -/
def VersionTLS12 : Nat := 0x0303
/-- Constant `tls.VersionTLS13`. -/
def VersionTLS13 : Nat := 0x0304

/-! ## The probers -/

/-- The deferred closure of both probers: `if conn != nil { _ = conn.Close() }`.
It runs when the prober returns, whatever the branch. -/
def deferredClose {σ : Type} (env : Env σ) (conn : Option Conn) (s : σ) : σ × List Event :=
  match conn with
  | some c => (env.Close s c, [Event.close c])
  | none => (s, [])

/-- The config built by `doesServerSupportCipherForTLSOneDotTwo` (lines 34-41). -/
def cipherConfig (cipher : Nat) : Config :=
  { MinVersion := VersionTLS12
    MaxVersion := VersionTLS12
    CipherSuites := [cipher]
    InsecureSkipVerify := true }

/-- The config built by `doesServerSupportTLSVersion` (lines 89-93). -/
def versionConfig (tlsVersion : Nat) : Config :=
  { MinVersion := tlsVersion
    MaxVersion := tlsVersion
    CipherSuites := []
    InsecureSkipVerify := true }

/-- Function `doesServerSupportCipherForTLSOneDotTwo` (lines 33-62). -/
def doesServerSupportCipherForTLSOneDotTwo {σ : Type} (env : Env σ) (cipher : Nat)
    (host port : String) (s : σ) : Run σ (Bool × Option GoError) :=
  let config := cipherConfig cipher
  let address := host ++ ":" ++ port
  let dialed := env.Dial s "tcp" address config
  let ret : Bool × Option GoError :=
    match dialed.1 with
    | .failed _ err =>
      if err.Error = "remote error: tls: handshake failure" then (false, none)
      else (false, some err)
    | .connected conn =>
      if cipher = conn.ConnectionState.CipherSuite then (true, none)
      else (false, some (GoError.errorf
        ("client negotiated unexpected cipher suite "
          ++ env.CipherSuiteName conn.ConnectionState.CipherSuite
          ++ ", expected cipher suite " ++ env.CipherSuiteName cipher)))
  let closed := deferredClose env dialed.1.conn dialed.2
  { ret := ret
    net := closed.1
    trace := Event.dial "tcp" address config dialed.1 :: closed.2 }

/-- Function `doesServerSupportTLSVersion` (lines 88-117). -/
def doesServerSupportTLSVersion {σ : Type} (env : Env σ) (tlsVersion : Nat)
    (host port : String) (s : σ) : Run σ (Bool × Option GoError) :=
  let config := versionConfig tlsVersion
  let address := host ++ ":" ++ port
  let dialed := env.Dial s "tcp" address config
  let ret : Bool × Option GoError :=
    match dialed.1 with
    | .failed _ err =>
      if err.Error = "tls: no supported versions satisfy MinVersion and MaxVersion" then
        (false, none)
      else if err.Error = "remote error: tls: protocol version not supported" then
        (false, none)
      else (false, some err)
    | .connected conn =>
      if conn.ConnectionState.Version = tlsVersion then (true, none)
      else (false, some (GoError.errorf
        ("client negotiated unexpected TLS Version "
          ++ env.quote (env.VersionName conn.ConnectionState.Version)
          ++ ", expected TLS Version " ++ env.quote (env.VersionName tlsVersion) ++ "\n")))
  let closed := deferredClose env dialed.1.conn dialed.2
  { ret := ret
    net := closed.1
    trace := Event.dial "tcp" address config dialed.1 :: closed.2 }

/-! ## The scanners -/

/-- The list `allCiphers` built by lines 65-71. -/
def allCiphers {σ : Type} (env : Env σ) : List Nat :=
  env.CipherSuites ++ env.InsecureCipherSuites

/-- The line printed by lines 77-79 for a cipher whose probe returned `err`. -/
def cipherDiagnostic {σ : Type} (env : Env σ) (cipher : Nat) (err : GoError) : String :=
  "error checking if server supports cipher suites "
    ++ env.quote (env.CipherSuiteName cipher) ++ ": " ++ err.Error ++ "\n"

/-- The line printed by lines 131-133 for a version whose probe returned `err`. -/
def versionDiagnostic {σ : Type} (env : Env σ) (tlsVersion : Nat) (err : GoError) : String :=
  "error checking if server supports TLS version "
    ++ env.quote (env.VersionName tlsVersion) ++ ": " ++ err.Error ++ "\n"

/-- The loop of lines 74-84 over the candidates still to visit, from the slice
`serverSupportedCiphers` accumulated so far. -/
def cipherLoop {σ : Type} (env : Env σ) (host port : String) :
    List Nat → List Nat → σ → Run σ (List Nat)
  | [], serverSupportedCiphers, s => { ret := serverSupportedCiphers, net := s, trace := [] }
  | cipher :: rest, serverSupportedCiphers, s =>
    let probe := doesServerSupportCipherForTLSOneDotTwo env cipher host port s
    let printed : List Event :=
      match probe.ret.2 with
      | some err => [Event.printf (cipherDiagnostic env cipher err)]
      | none => []
    let appended :=
      if probe.ret.1 then serverSupportedCiphers ++ [cipher] else serverSupportedCiphers
    let later := cipherLoop env host port rest appended probe.net
    { ret := later.ret, net := later.net, trace := probe.trace ++ printed ++ later.trace }

/-- Function `determineServerSupportedCipherSuitesForTLSOneDotTwo` (lines 64-86). -/
def determineServerSupportedCipherSuitesForTLSOneDotTwo {σ : Type} (env : Env σ)
    (host port : String) (s : σ) : Run σ (List Nat) :=
  cipherLoop env host port (allCiphers env) [] s

/-- The slice `allTLSVersions` of lines 120-125. -/
def allTLSVersions : List Nat :=
  [VersionTLS10, VersionTLS11, VersionTLS12, VersionTLS13]

/-- The loop of lines 128-138 over the candidates still to visit, from the slice
`serverSupportedTLSVersions` accumulated so far. -/
def versionLoop {σ : Type} (env : Env σ) (host port : String) :
    List Nat → List Nat → σ → Run σ (List Nat)
  | [], serverSupportedTLSVersions, s =>
    { ret := serverSupportedTLSVersions, net := s, trace := [] }
  | tlsVersion :: rest, serverSupportedTLSVersions, s =>
    let probe := doesServerSupportTLSVersion env tlsVersion host port s
    let printed : List Event :=
      match probe.ret.2 with
      | some err => [Event.printf (versionDiagnostic env tlsVersion err)]
      | none => []
    let appended :=
      if probe.ret.1 then serverSupportedTLSVersions ++ [tlsVersion]
      else serverSupportedTLSVersions
    let later := versionLoop env host port rest appended probe.net
    { ret := later.ret, net := later.net, trace := probe.trace ++ printed ++ later.trace }

/-- Function `determineServerSupportedTLSVersions` (lines 119-140). -/
def determineServerSupportedTLSVersions {σ : Type} (env : Env σ)
    (host port : String) (s : σ) : Run σ (List Nat) :=
  versionLoop env host port allTLSVersions [] s

/-! ## The outcomes of a scan -/

/-- The values returned by the successive calls of `doesServerSupportTLSVersion`
that a scan of `candidates` makes from network state `s`, in call order: each
call starts from the network state the previous one left. -/
def versionOutcomes {σ : Type} (env : Env σ) (host port : String) :
    List Nat → σ → List (Bool × Option GoError)
  | [], _ => []
  | tlsVersion :: rest, s =>
    (doesServerSupportTLSVersion env tlsVersion host port s).ret ::
      versionOutcomes env host port rest
        (doesServerSupportTLSVersion env tlsVersion host port s).net

/-- The values returned by the successive calls of
`doesServerSupportCipherForTLSOneDotTwo` that a scan of `candidates` makes from
network state `s`, in call order. -/
def cipherOutcomes {σ : Type} (env : Env σ) (host port : String) :
    List Nat → σ → List (Bool × Option GoError)
  | [], _ => []
  | cipher :: rest, s =>
    (doesServerSupportCipherForTLSOneDotTwo env cipher host port s).ret ::
      cipherOutcomes env host port rest
        (doesServerSupportCipherForTLSOneDotTwo env cipher host port s).net

/-- The candidates whose outcome is exactly `Supported`, that is `(true, nil)`,
in candidate order. -/
def supportedOnly (candidates : List Nat) (outcomes : List (Bool × Option GoError)) :
    List Nat :=
  ((candidates.zip outcomes).filter (fun p => decide (p.2 = (true, none)))).map Prod.fst

/-- One diagnostic line per candidate whose outcome is `Error`, that is
`(false, err)` with `err` non-nil, in candidate order. -/
def errorLines (line : Nat → GoError → String) (candidates : List Nat)
    (outcomes : List (Bool × Option GoError)) : List String :=
  (candidates.zip outcomes).filterMap (fun p =>
    match p.2 with
    | (false, some err) => some (line p.1 err)
    | _ => none)

/-- The successive runs of `doesServerSupportTLSVersion` that a scan of
`candidates` makes from network state `s`, in call order, each with the value
it returned, the network state it left and the collaborator calls it made:
each run starts from the network state the previous one left. -/
def versionRuns {σ : Type} (env : Env σ) (host port : String) :
    List Nat → σ → List (Run σ (Bool × Option GoError))
  | [], _ => []
  | tlsVersion :: rest, s =>
    doesServerSupportTLSVersion env tlsVersion host port s ::
      versionRuns env host port rest
        (doesServerSupportTLSVersion env tlsVersion host port s).net

/-- The successive runs of `doesServerSupportCipherForTLSOneDotTwo` that a scan
of `candidates` makes from network state `s`, in call order. -/
def cipherRuns {σ : Type} (env : Env σ) (host port : String) :
    List Nat → σ → List (Run σ (Bool × Option GoError))
  | [], _ => []
  | cipher :: rest, s =>
    doesServerSupportCipherForTLSOneDotTwo env cipher host port s ::
      cipherRuns env host port rest
        (doesServerSupportCipherForTLSOneDotTwo env cipher host port s).net

/-! ## Observations on a trace -/

/-- The connections handed out by the `tls.Dial` calls of a trace, in order. -/
def opened : List Event → List Conn
  | [] => []
  | Event.dial _ _ _ result :: rest => result.conn.toList ++ opened rest
  | _ :: rest => opened rest

/-- The connections on which a trace calls `Close`, in order. -/
def closed : List Event → List Conn
  | [] => []
  | Event.close conn :: rest => conn :: closed rest
  | _ :: rest => closed rest

/-- The arguments of the `tls.Dial` calls of a trace, in order. -/
def dialCalls : List Event → List (String × String × Config)
  | [] => []
  | Event.dial network address config _ :: rest => (network, address, config) :: dialCalls rest
  | _ :: rest => dialCalls rest

/-- The lines a trace prints on standard output, in order. -/
def printed : List Event → List String
  | [] => []
  | Event.printf out :: rest => out :: printed rest
  | _ :: rest => printed rest

/-- A transport that counts: it keeps the network state of `env` together with
the number of connections it has handed out and the number of `Close` calls it
has received. -/
def countingEnv {σ : Type} (env : Env σ) : Env (σ × Nat × Nat) :=
  { env with
    Dial := fun s network address config =>
      let dialed := env.Dial s.1 network address config
      (dialed.1, dialed.2, s.2.1 + dialed.1.conn.toList.length, s.2.2)
    Close := fun s conn => (env.Close s.1 conn, s.2.1, s.2.2 + 1) }

/-- The number of connections a counting transport holds open: those it handed
out minus those closed. -/
def openConnections {σ : Type} (s : σ × Nat × Nat) : Int :=
  (s.2.1 : Int) - (s.2.2 : Int)

/-! ## A scripted transport for concrete runs -/

/-- A transport whose network state is the number of handshakes attempted so
far; `respond config n` is the answer to the handshake attempted with `config`
after `n` earlier ones. -/
def scriptedEnv (respond : Config → Nat → DialResult) : Env Nat :=
  { Dial := fun s _ _ config => (respond config s, s + 1)
    Close := fun s _ => s
    VersionName := fun v => "version " ++ toString v
    CipherSuiteName := fun c => "suite " ++ toString c
    quote := fun str => "\"" ++ str ++ "\""
    CipherSuites := [0xC02F, 0x1301]
    InsecureCipherSuites := [0x000A, 0x0005] }

/-- A server that rejects TLS 1.0 and TLS 1.3, cannot be resolved when TLS 1.1 is
asked for, and speaks TLS 1.2 with the suite 0xC02F: it rejects the suite
0x000A with a handshake failure, answers the suite 0x1301 with a
protocol-version alert, and wrongly negotiates 0xC02F when offered 0x0005. -/
def demoServer (config : Config) (n : Nat) : DialResult :=
  if config.MinVersion = VersionTLS10 then
    .failed none (.external 1 "remote error: tls: protocol version not supported")
  else if config.MinVersion = VersionTLS11 then
    .failed none (.external 2 "dial tcp: lookup host.invalid: no such host")
  else if config.MinVersion = VersionTLS13 then
    .failed none (.external 3 "tls: no supported versions satisfy MinVersion and MaxVersion")
  else if config.CipherSuites = [] ∨ config.CipherSuites = [0xC02F] then
    .connected { id := n, state := { Version := VersionTLS12, CipherSuite := 0xC02F } }
  else if config.CipherSuites = [0x000A] then
    .failed none (.external 4 "remote error: tls: handshake failure")
  else if config.CipherSuites = [0x0005] then
    .connected { id := n, state := { Version := VersionTLS12, CipherSuite := 0xC02F } }
  else
    .failed none (.external 5 "remote error: tls: protocol version not supported")

/-- A server that accepts TLS 1.1 and TLS 1.2 only. -/
def middleServer (config : Config) (n : Nat) : DialResult :=
  if config.MinVersion = VersionTLS11 ∨ config.MinVersion = VersionTLS12 then
    .connected { id := n, state := { Version := config.MinVersion, CipherSuite := 0xC02F } }
  else
    .failed none (.external 1 "remote error: tls: protocol version not supported")

/-- A broken primitive that always negotiates TLS 1.2, whatever it was pinned to. -/
def stubbornServer (_config : Config) (n : Nat) : DialResult :=
  .connected { id := n, state := { Version := VersionTLS12, CipherSuite := 0xC02F } }

end TLSProbe

namespace TLSProbe

/-! ## The probers: what they return -/

theorem version_ret_failed {σ : Type} (env : Env σ) (tlsVersion : Nat) (host port : String)
    (s : σ) (conn : Option Conn) (err : GoError)
    (h : (env.Dial s "tcp" (host ++ ":" ++ port) (versionConfig tlsVersion)).1
      = DialResult.failed conn err) :
    (doesServerSupportTLSVersion env tlsVersion host port s).ret =
      if err.Error = "tls: no supported versions satisfy MinVersion and MaxVersion" then
        (false, none)
      else if err.Error = "remote error: tls: protocol version not supported" then
        (false, none)
      else (false, some err) := by
  simp only [doesServerSupportTLSVersion, h]

theorem version_ret_connected {σ : Type} (env : Env σ) (tlsVersion : Nat) (host port : String)
    (s : σ) (conn : Conn)
    (h : (env.Dial s "tcp" (host ++ ":" ++ port) (versionConfig tlsVersion)).1
      = DialResult.connected conn) :
    (doesServerSupportTLSVersion env tlsVersion host port s).ret =
      if conn.ConnectionState.Version = tlsVersion then (true, none)
      else (false, some (GoError.errorf
        ("client negotiated unexpected TLS Version "
          ++ env.quote (env.VersionName conn.ConnectionState.Version)
          ++ ", expected TLS Version " ++ env.quote (env.VersionName tlsVersion) ++ "\n"))) := by
  simp only [doesServerSupportTLSVersion, h]

theorem cipher_ret_failed {σ : Type} (env : Env σ) (cipher : Nat) (host port : String)
    (s : σ) (conn : Option Conn) (err : GoError)
    (h : (env.Dial s "tcp" (host ++ ":" ++ port) (cipherConfig cipher)).1
      = DialResult.failed conn err) :
    (doesServerSupportCipherForTLSOneDotTwo env cipher host port s).ret =
      if err.Error = "remote error: tls: handshake failure" then (false, none)
      else (false, some err) := by
  simp only [doesServerSupportCipherForTLSOneDotTwo, h]

theorem cipher_ret_connected {σ : Type} (env : Env σ) (cipher : Nat) (host port : String)
    (s : σ) (conn : Conn)
    (h : (env.Dial s "tcp" (host ++ ":" ++ port) (cipherConfig cipher)).1
      = DialResult.connected conn) :
    (doesServerSupportCipherForTLSOneDotTwo env cipher host port s).ret =
      if cipher = conn.ConnectionState.CipherSuite then (true, none)
      else (false, some (GoError.errorf
        ("client negotiated unexpected cipher suite "
          ++ env.CipherSuiteName conn.ConnectionState.CipherSuite
          ++ ", expected cipher suite " ++ env.CipherSuiteName cipher))) := by
  simp only [doesServerSupportCipherForTLSOneDotTwo, h]

/-- The three shapes a prober may return: `(true, nil)`, `(false, nil)` and
`(false, err)` with `err` non-nil. -/
theorem version_ret_shape {σ : Type} (env : Env σ) (tlsVersion : Nat) (host port : String)
    (s : σ) :
    (doesServerSupportTLSVersion env tlsVersion host port s).ret = (true, none) ∨
    (doesServerSupportTLSVersion env tlsVersion host port s).ret = (false, none) ∨
    ∃ err, (doesServerSupportTLSVersion env tlsVersion host port s).ret = (false, some err) := by
  cases h : (env.Dial s "tcp" (host ++ ":" ++ port) (versionConfig tlsVersion)).1 with
  | connected conn =>
    rw [version_ret_connected env tlsVersion host port s conn h]
    split
    · exact Or.inl rfl
    · exact Or.inr (Or.inr ⟨_, rfl⟩)
  | failed conn err =>
    rw [version_ret_failed env tlsVersion host port s conn err h]
    split
    · exact Or.inr (Or.inl rfl)
    · split
      · exact Or.inr (Or.inl rfl)
      · exact Or.inr (Or.inr ⟨_, rfl⟩)

theorem cipher_ret_shape {σ : Type} (env : Env σ) (cipher : Nat) (host port : String)
    (s : σ) :
    (doesServerSupportCipherForTLSOneDotTwo env cipher host port s).ret = (true, none) ∨
    (doesServerSupportCipherForTLSOneDotTwo env cipher host port s).ret = (false, none) ∨
    ∃ err, (doesServerSupportCipherForTLSOneDotTwo env cipher host port s).ret
      = (false, some err) := by
  cases h : (env.Dial s "tcp" (host ++ ":" ++ port) (cipherConfig cipher)).1 with
  | connected conn =>
    rw [cipher_ret_connected env cipher host port s conn h]
    split
    · exact Or.inl rfl
    · exact Or.inr (Or.inr ⟨_, rfl⟩)
  | failed conn err =>
    rw [cipher_ret_failed env cipher host port s conn err h]
    split
    · exact Or.inr (Or.inl rfl)
    · exact Or.inr (Or.inr ⟨_, rfl⟩)

/-- A prober never returns `true` together with a non-nil error. -/
theorem version_true_no_error {σ : Type} (env : Env σ) (tlsVersion : Nat) (host port : String)
    (s : σ) (h : (doesServerSupportTLSVersion env tlsVersion host port s).ret.1 = true) :
    (doesServerSupportTLSVersion env tlsVersion host port s).ret.2 = none := by
  rcases version_ret_shape env tlsVersion host port s with h1 | h1 | ⟨err, h1⟩ <;> simp_all

theorem cipher_true_no_error {σ : Type} (env : Env σ) (cipher : Nat) (host port : String)
    (s : σ) (h : (doesServerSupportCipherForTLSOneDotTwo env cipher host port s).ret.1 = true) :
    (doesServerSupportCipherForTLSOneDotTwo env cipher host port s).ret.2 = none := by
  rcases cipher_ret_shape env cipher host port s with h1 | h1 | ⟨err, h1⟩ <;> simp_all

/-! ## Observations distribute over concatenation -/

theorem opened_append (a b : List Event) : opened (a ++ b) = opened a ++ opened b := by
  induction a with
  | nil => rfl
  | cons e rest ih => cases e <;> simp [opened, ih]

theorem closed_append (a b : List Event) : closed (a ++ b) = closed a ++ closed b := by
  induction a with
  | nil => rfl
  | cons e rest ih => cases e <;> simp [closed, ih]

theorem dialCalls_append (a b : List Event) :
    dialCalls (a ++ b) = dialCalls a ++ dialCalls b := by
  induction a with
  | nil => rfl
  | cons e rest ih => cases e <;> simp [dialCalls, ih]

theorem printed_append (a b : List Event) : printed (a ++ b) = printed a ++ printed b := by
  induction a with
  | nil => rfl
  | cons e rest ih => cases e <;> simp [printed, ih]

/-! ## The probers: what they do -/

theorem version_trace {σ : Type} (env : Env σ) (tlsVersion : Nat) (host port : String)
    (s : σ) :
    (doesServerSupportTLSVersion env tlsVersion host port s).trace =
      Event.dial "tcp" (host ++ ":" ++ port) (versionConfig tlsVersion)
          (env.Dial s "tcp" (host ++ ":" ++ port) (versionConfig tlsVersion)).1 ::
        ((env.Dial s "tcp" (host ++ ":" ++ port) (versionConfig tlsVersion)).1.conn.toList.map
          Event.close) := by
  simp only [doesServerSupportTLSVersion, deferredClose]
  cases (env.Dial s "tcp" (host ++ ":" ++ port) (versionConfig tlsVersion)).1.conn <;> rfl

theorem cipher_trace {σ : Type} (env : Env σ) (cipher : Nat) (host port : String)
    (s : σ) :
    (doesServerSupportCipherForTLSOneDotTwo env cipher host port s).trace =
      Event.dial "tcp" (host ++ ":" ++ port) (cipherConfig cipher)
          (env.Dial s "tcp" (host ++ ":" ++ port) (cipherConfig cipher)).1 ::
        ((env.Dial s "tcp" (host ++ ":" ++ port) (cipherConfig cipher)).1.conn.toList.map
          Event.close) := by
  simp only [doesServerSupportCipherForTLSOneDotTwo, deferredClose]
  cases (env.Dial s "tcp" (host ++ ":" ++ port) (cipherConfig cipher)).1.conn <;> rfl

theorem version_net {σ : Type} (env : Env σ) (tlsVersion : Nat) (host port : String)
    (s : σ) :
    (doesServerSupportTLSVersion env tlsVersion host port s).net =
      (match (env.Dial s "tcp" (host ++ ":" ++ port) (versionConfig tlsVersion)).1.conn with
        | some conn =>
          env.Close (env.Dial s "tcp" (host ++ ":" ++ port) (versionConfig tlsVersion)).2 conn
        | none => (env.Dial s "tcp" (host ++ ":" ++ port) (versionConfig tlsVersion)).2) := by
  simp only [doesServerSupportTLSVersion, deferredClose]
  cases (env.Dial s "tcp" (host ++ ":" ++ port) (versionConfig tlsVersion)).1.conn <;> rfl

theorem cipher_net {σ : Type} (env : Env σ) (cipher : Nat) (host port : String)
    (s : σ) :
    (doesServerSupportCipherForTLSOneDotTwo env cipher host port s).net =
      (match (env.Dial s "tcp" (host ++ ":" ++ port) (cipherConfig cipher)).1.conn with
        | some conn =>
          env.Close (env.Dial s "tcp" (host ++ ":" ++ port) (cipherConfig cipher)).2 conn
        | none => (env.Dial s "tcp" (host ++ ":" ++ port) (cipherConfig cipher)).2) := by
  simp only [doesServerSupportCipherForTLSOneDotTwo, deferredClose]
  cases (env.Dial s "tcp" (host ++ ":" ++ port) (cipherConfig cipher)).1.conn <;> rfl

theorem closed_map_close (l : List Conn) : closed (l.map Event.close) = l := by
  induction l with
  | nil => rfl
  | cons c rest ih => simp [closed, ih]

theorem opened_map_close (l : List Conn) : opened (l.map Event.close) = [] := by
  induction l with
  | nil => rfl
  | cons c rest ih => simp [opened, ih]

theorem dialCalls_map_close (l : List Conn) : dialCalls (l.map Event.close) = [] := by
  induction l with
  | nil => rfl
  | cons c rest ih => simp [dialCalls, ih]

theorem printed_map_close (l : List Conn) : printed (l.map Event.close) = [] := by
  induction l with
  | nil => rfl
  | cons c rest ih => simp [printed, ih]

/-! ## The scanners -/

theorem supportedOnly_cons (c : Nat) (rest : List Nat) (o : Bool × Option GoError)
    (outs : List (Bool × Option GoError)) :
    supportedOnly (c :: rest) (o :: outs) =
      (if o = (true, none) then [c] else []) ++ supportedOnly rest outs := by
  unfold supportedOnly
  by_cases h : o = (true, none) <;> simp [List.filter_cons, h]

theorem errorLines_cons (line : Nat → GoError → String) (c : Nat) (rest : List Nat)
    (o : Bool × Option GoError) (outs : List (Bool × Option GoError)) :
    errorLines line (c :: rest) (o :: outs) =
      (match o with
        | (false, some err) => [line c err]
        | _ => []) ++ errorLines line rest outs := by
  unfold errorLines
  rcases o with ⟨b, e⟩
  cases b <;> cases e <;> simp [List.filterMap_cons]

theorem supportedOnly_sublist (candidates : List Nat) (outs : List (Bool × Option GoError)) :
    (supportedOnly candidates outs).Sublist candidates := by
  induction candidates generalizing outs with
  | nil => simp [supportedOnly]
  | cons c rest ih =>
    cases outs with
    | nil => simp [supportedOnly]
    | cons o outs =>
      rw [supportedOnly_cons]
      split
      · exact (ih outs).cons₂ c
      · exact (ih outs).cons c

theorem versionOutcomes_length {σ : Type} (env : Env σ) (host port : String)
    (candidates : List Nat) (s : σ) :
    (versionOutcomes env host port candidates s).length = candidates.length := by
  induction candidates generalizing s with
  | nil => rfl
  | cons v rest ih => simp [versionOutcomes, ih]

theorem cipherOutcomes_length {σ : Type} (env : Env σ) (host port : String)
    (candidates : List Nat) (s : σ) :
    (cipherOutcomes env host port candidates s).length = candidates.length := by
  induction candidates generalizing s with
  | nil => rfl
  | cons c rest ih => simp [cipherOutcomes, ih]

theorem versionOutcomes_shape {σ : Type} (env : Env σ) (host port : String)
    (candidates : List Nat) (s : σ) (o : Bool × Option GoError)
    (h : o ∈ versionOutcomes env host port candidates s) :
    o = (true, none) ∨ o = (false, none) ∨ ∃ err, o = (false, some err) := by
  induction candidates generalizing s with
  | nil => simp [versionOutcomes] at h
  | cons v rest ih =>
    simp only [versionOutcomes, List.mem_cons] at h
    rcases h with h | h
    · rw [h]; exact version_ret_shape env v host port s
    · exact ih _ h

theorem cipherOutcomes_shape {σ : Type} (env : Env σ) (host port : String)
    (candidates : List Nat) (s : σ) (o : Bool × Option GoError)
    (h : o ∈ cipherOutcomes env host port candidates s) :
    o = (true, none) ∨ o = (false, none) ∨ ∃ err, o = (false, some err) := by
  induction candidates generalizing s with
  | nil => simp [cipherOutcomes] at h
  | cons c rest ih =>
    simp only [cipherOutcomes, List.mem_cons] at h
    rcases h with h | h
    · rw [h]; exact cipher_ret_shape env c host port s
    · exact ih _ h

theorem versionLoop_ret {σ : Type} (env : Env σ) (host port : String)
    (candidates acc : List Nat) (s : σ) :
    (versionLoop env host port candidates acc s).ret =
      acc ++ supportedOnly candidates (versionOutcomes env host port candidates s) := by
  induction candidates generalizing acc s with
  | nil => simp [versionLoop, versionOutcomes, supportedOnly]
  | cons v rest ih =>
    simp only [versionLoop, versionOutcomes, supportedOnly_cons, ih]
    rcases version_ret_shape env v host port s with h | h | ⟨err, h⟩ <;> simp [h]

theorem cipherLoop_ret {σ : Type} (env : Env σ) (host port : String)
    (candidates acc : List Nat) (s : σ) :
    (cipherLoop env host port candidates acc s).ret =
      acc ++ supportedOnly candidates (cipherOutcomes env host port candidates s) := by
  induction candidates generalizing acc s with
  | nil => simp [cipherLoop, cipherOutcomes, supportedOnly]
  | cons c rest ih =>
    simp only [cipherLoop, cipherOutcomes, supportedOnly_cons, ih]
    rcases cipher_ret_shape env c host port s with h | h | ⟨err, h⟩ <;> simp [h]

theorem versionLoop_dialCalls {σ : Type} (env : Env σ) (host port : String)
    (candidates acc : List Nat) (s : σ) :
    dialCalls (versionLoop env host port candidates acc s).trace =
      candidates.map (fun v => ("tcp", host ++ ":" ++ port, versionConfig v)) := by
  induction candidates generalizing acc s with
  | nil => simp [versionLoop, dialCalls]
  | cons v rest ih =>
    simp only [versionLoop, dialCalls_append, ih, version_trace, List.map_cons]
    cases (doesServerSupportTLSVersion env v host port s).ret.2 <;>
      simp [dialCalls, dialCalls_map_close]

theorem cipherLoop_dialCalls {σ : Type} (env : Env σ) (host port : String)
    (candidates acc : List Nat) (s : σ) :
    dialCalls (cipherLoop env host port candidates acc s).trace =
      candidates.map (fun c => ("tcp", host ++ ":" ++ port, cipherConfig c)) := by
  induction candidates generalizing acc s with
  | nil => simp [cipherLoop, dialCalls]
  | cons c rest ih =>
    simp only [cipherLoop, dialCalls_append, ih, cipher_trace, List.map_cons]
    cases (doesServerSupportCipherForTLSOneDotTwo env c host port s).ret.2 <;>
      simp [dialCalls, dialCalls_map_close]

theorem versionLoop_printed {σ : Type} (env : Env σ) (host port : String)
    (candidates acc : List Nat) (s : σ) :
    printed (versionLoop env host port candidates acc s).trace =
      errorLines (versionDiagnostic env) candidates
        (versionOutcomes env host port candidates s) := by
  induction candidates generalizing acc s with
  | nil => simp [versionLoop, versionOutcomes, errorLines, printed]
  | cons v rest ih =>
    simp only [versionLoop, versionOutcomes, errorLines_cons, printed_append, ih, version_trace]
    rcases version_ret_shape env v host port s with h | h | ⟨err, h⟩ <;>
      simp [h, printed, printed_map_close]

theorem cipherLoop_printed {σ : Type} (env : Env σ) (host port : String)
    (candidates acc : List Nat) (s : σ) :
    printed (cipherLoop env host port candidates acc s).trace =
      errorLines (cipherDiagnostic env) candidates
        (cipherOutcomes env host port candidates s) := by
  induction candidates generalizing acc s with
  | nil => simp [cipherLoop, cipherOutcomes, errorLines, printed]
  | cons c rest ih =>
    simp only [cipherLoop, cipherOutcomes, errorLines_cons, printed_append, ih, cipher_trace]
    rcases cipher_ret_shape env c host port s with h | h | ⟨err, h⟩ <;>
      simp [h, printed, printed_map_close]

theorem mem_supportedOnly (candidates : List Nat) (outs : List (Bool × Option GoError))
    (c : Nat) :
    c ∈ supportedOnly candidates outs ↔ (c, (true, none)) ∈ candidates.zip outs := by
  unfold supportedOnly
  constructor
  · intro h
    rcases List.mem_map.1 h with ⟨⟨c1, o⟩, hmem, hc⟩
    rcases List.mem_filter.1 hmem with ⟨hz, ho⟩
    have ho1 : o = (true, none) := by simpa using ho
    have hc1 : c1 = c := hc
    rw [← hc1, ← ho1]
    exact hz
  · intro h
    exact List.mem_map.2 ⟨(c, (true, none)), List.mem_filter.2 ⟨h, by simp⟩, rfl⟩

theorem zip_outcome_unique (candidates : List Nat) (outs : List (Bool × Option GoError))
    (hnodup : candidates.Nodup) (c : Nat) (o1 o2 : Bool × Option GoError)
    (h1 : (c, o1) ∈ candidates.zip outs) (h2 : (c, o2) ∈ candidates.zip outs) : o1 = o2 := by
  induction candidates generalizing outs with
  | nil => simp at h1
  | cons a rest ih =>
    cases outs with
    | nil => simp at h1
    | cons b outs =>
      rw [List.zip_cons_cons, List.mem_cons] at h1 h2
      have hnot : a ∉ rest := (List.nodup_cons.1 hnodup).1
      rcases h1 with h1 | h1 <;> rcases h2 with h2 | h2
      · rw [Prod.mk.injEq] at h1 h2
        rw [h1.2, h2.2]
      · rw [Prod.mk.injEq] at h1
        rw [h1.1] at h2
        exact absurd (List.of_mem_zip h2).1 hnot
      · rw [Prod.mk.injEq] at h2
        rw [h2.1] at h1
        exact absurd (List.of_mem_zip h1).1 hnot
      · exact ih outs (List.nodup_cons.1 hnodup).2 h1 h2

theorem not_mem_supportedOnly (candidates : List Nat) (outs : List (Bool × Option GoError))
    (hnodup : candidates.Nodup) (c : Nat) (o : Bool × Option GoError)
    (hmem : (c, o) ∈ candidates.zip outs) (ho : o ≠ (true, none)) :
    c ∉ supportedOnly candidates outs := by
  intro h
  rw [mem_supportedOnly] at h
  exact ho (zip_outcome_unique candidates outs hnodup c o (true, none) hmem h)

theorem allTLSVersions_nodup : allTLSVersions.Nodup := by decide

theorem counting_version_net {σ : Type} (env : Env σ) (tlsVersion : Nat) (host port : String)
    (s : σ) (o k : Nat) :
    (doesServerSupportTLSVersion (countingEnv env) tlsVersion host port (s, o, k)).net =
      ((doesServerSupportTLSVersion env tlsVersion host port s).net,
        o + (opened (doesServerSupportTLSVersion env tlsVersion host port s).trace).length,
        k + (opened (doesServerSupportTLSVersion env tlsVersion host port s).trace).length) := by
  simp only [doesServerSupportTLSVersion, deferredClose, countingEnv, opened]
  cases (env.Dial s "tcp" (host ++ ":" ++ port) (versionConfig tlsVersion)).1.conn <;>
    simp [opened]

theorem counting_cipher_net {σ : Type} (env : Env σ) (cipher : Nat) (host port : String)
    (s : σ) (o k : Nat) :
    (doesServerSupportCipherForTLSOneDotTwo (countingEnv env) cipher host port (s, o, k)).net =
      ((doesServerSupportCipherForTLSOneDotTwo env cipher host port s).net,
        o + (opened (doesServerSupportCipherForTLSOneDotTwo env cipher host port s).trace).length,
        k + (opened (doesServerSupportCipherForTLSOneDotTwo env cipher host port s).trace).length) := by
  simp only [doesServerSupportCipherForTLSOneDotTwo, deferredClose, countingEnv, opened]
  cases (env.Dial s "tcp" (host ++ ":" ++ port) (cipherConfig cipher)).1.conn <;>
    simp [opened]

theorem count_toList_self (x : Option Conn) (c : Conn) (h : c ∈ x.toList) :
    x.toList.count c = 1 := by
  cases x with
  | none => simp at h
  | some d =>
    have hc : c = d := by simpa using h
    rw [hc]
    simp

/-! ## The probers: claims -/

/-- C1: when the handshake that `doesServerSupportTLSVersion` attempts fails with
error `e`, the prober returns `(false, nil)` if the text of `e` is
"tls: no supported versions satisfy MinVersion and MaxVersion" or
"remote error: tls: protocol version not supported", and `(false, e)`, with `e`
itself as the error, for every other failure. -/
theorem version_probe_failure_classified {σ : Type} (env : Env σ) (tlsVersion : Nat)
    (host port : String) (s : σ) (conn : Option Conn) (e : GoError)
    (hfail : (env.Dial s "tcp" (host ++ ":" ++ port) (versionConfig tlsVersion)).1
      = DialResult.failed conn e) :
    (doesServerSupportTLSVersion env tlsVersion host port s).ret =
      if e.Error = "tls: no supported versions satisfy MinVersion and MaxVersion"
          ∨ e.Error = "remote error: tls: protocol version not supported" then
        (false, none)
      else (false, some e) := by
  rw [version_ret_failed env tlsVersion host port s conn e hfail]
  by_cases h1 : e.Error = "tls: no supported versions satisfy MinVersion and MaxVersion"
  · simp [h1]
  · by_cases h2 : e.Error = "remote error: tls: protocol version not supported"
    · simp [h2]
    · simp [h1, h2]

/-- Witness of C1: a name that does not resolve is an error carrying the cause,
and a protocol-version alert is "not supported". -/
theorem version_probe_failure_classified_witness :
    (((scriptedEnv demoServer).Dial 0 "tcp" ("host.invalid" ++ ":" ++ "443")
        (versionConfig VersionTLS11)).1
      = DialResult.failed none
          (GoError.external 2 "dial tcp: lookup host.invalid: no such host")) ∧
    (doesServerSupportTLSVersion (scriptedEnv demoServer) VersionTLS11
        "host.invalid" "443" 0).ret
      = (false, some (GoError.external 2 "dial tcp: lookup host.invalid: no such host")) ∧
    (doesServerSupportTLSVersion (scriptedEnv demoServer) VersionTLS10
        "host.invalid" "443" 0).ret = (false, none) :=
  ⟨by decide,
   (version_probe_failure_classified (scriptedEnv demoServer) VersionTLS11
      "host.invalid" "443" 0 none
      (GoError.external 2 "dial tcp: lookup host.invalid: no such host")
      (by decide)).trans (by decide),
   (version_probe_failure_classified (scriptedEnv demoServer) VersionTLS10
      "host.invalid" "443" 0 none
      (GoError.external 1 "remote error: tls: protocol version not supported")
      (by decide)).trans (by decide)⟩

/-- C2: `doesServerSupportTLSVersion` returns `(true, nil)` if and only if the
handshake pinned to the version succeeded and the negotiated version equals it;
when the handshake succeeds with another negotiated version the prober returns
`(false, err)` with `err` non-nil. -/
theorem version_probe_supported_iff {σ : Type} (env : Env σ) (tlsVersion : Nat)
    (host port : String) (s : σ) :
    ((doesServerSupportTLSVersion env tlsVersion host port s).ret = (true, none) ↔
      ∃ conn, (env.Dial s "tcp" (host ++ ":" ++ port) (versionConfig tlsVersion)).1
          = DialResult.connected conn ∧ conn.ConnectionState.Version = tlsVersion) ∧
    (∀ conn, (env.Dial s "tcp" (host ++ ":" ++ port) (versionConfig tlsVersion)).1
          = DialResult.connected conn → conn.ConnectionState.Version ≠ tlsVersion →
      ∃ err, (doesServerSupportTLSVersion env tlsVersion host port s).ret
        = (false, some err)) := by
  constructor
  · cases h : (env.Dial s "tcp" (host ++ ":" ++ port) (versionConfig tlsVersion)).1 with
    | connected conn =>
      rw [version_ret_connected env tlsVersion host port s conn h]
      by_cases hv : conn.ConnectionState.Version = tlsVersion
      · simp [hv]
      · simp [hv]
    | failed conn err =>
      rw [version_ret_failed env tlsVersion host port s conn err h]
      constructor
      · intro hret
        split at hret
        · simp at hret
        · split at hret <;> simp at hret
      · rintro ⟨c, hc, _⟩
        simp at hc
  · intro conn h hv
    rw [version_ret_connected env tlsVersion host port s conn h, if_neg hv]
    exact ⟨_, rfl⟩

/-- Witness of C2: a primitive that negotiates TLS 1.2 although pinned to TLS 1.3
gives an error, not "supported"; pinned to TLS 1.2 it gives "supported". -/
theorem version_probe_supported_iff_witness :
    (∃ err, (doesServerSupportTLSVersion (scriptedEnv stubbornServer) VersionTLS13
        "example.test" "443" 0).ret = (false, some err)) ∧
    (doesServerSupportTLSVersion (scriptedEnv stubbornServer) VersionTLS12
        "example.test" "443" 0).ret = (true, none) :=
  ⟨(version_probe_supported_iff (scriptedEnv stubbornServer) VersionTLS13
      "example.test" "443" 0).2
      { id := 0, state := { Version := VersionTLS12, CipherSuite := 0xC02F } }
      (by decide) (by decide),
   (version_probe_supported_iff (scriptedEnv stubbornServer) VersionTLS12
      "example.test" "443" 0).1.2
      ⟨{ id := 0, state := { Version := VersionTLS12, CipherSuite := 0xC02F } },
        by decide, by decide⟩⟩

/-- C3: when the handshake that `doesServerSupportCipherForTLSOneDotTwo` attempts
fails with error `e`, the prober returns `(false, nil)` if the text of `e` is
"remote error: tls: handshake failure", and `(false, e)`, with `e` itself as
the error, for every other failure, a protocol-version rejection included. -/
theorem cipher_probe_failure_classified {σ : Type} (env : Env σ) (cipher : Nat)
    (host port : String) (s : σ) (conn : Option Conn) (e : GoError)
    (hfail : (env.Dial s "tcp" (host ++ ":" ++ port) (cipherConfig cipher)).1
      = DialResult.failed conn e) :
    ((doesServerSupportCipherForTLSOneDotTwo env cipher host port s).ret =
      if e.Error = "remote error: tls: handshake failure" then (false, none)
      else (false, some e)) ∧
    (e.Error = "remote error: tls: protocol version not supported" →
      (doesServerSupportCipherForTLSOneDotTwo env cipher host port s).ret
        = (false, some e)) ∧
    (e.Error = "tls: no supported versions satisfy MinVersion and MaxVersion" →
      (doesServerSupportCipherForTLSOneDotTwo env cipher host port s).ret
        = (false, some e)) := by
  rw [cipher_ret_failed env cipher host port s conn e hfail]
  refine ⟨rfl, ?_, ?_⟩
  · intro h
    rw [h, if_neg (by decide)]
  · intro h
    rw [h, if_neg (by decide)]

/-- Witness of C3: a handshake failure is "not supported", a protocol-version
alert is an error carrying the alert. -/
theorem cipher_probe_failure_classified_witness :
    (((scriptedEnv demoServer).Dial 0 "tcp" ("example.test" ++ ":" ++ "443")
        (cipherConfig 0x000A)).1
      = DialResult.failed none
          (GoError.external 4 "remote error: tls: handshake failure")) ∧
    (doesServerSupportCipherForTLSOneDotTwo (scriptedEnv demoServer) 0x000A
        "example.test" "443" 0).ret = (false, none) ∧
    (doesServerSupportCipherForTLSOneDotTwo (scriptedEnv demoServer) 0x1301
        "example.test" "443" 0).ret
      = (false, some
          (GoError.external 5 "remote error: tls: protocol version not supported")) :=
  ⟨by decide,
   (cipher_probe_failure_classified (scriptedEnv demoServer) 0x000A
      "example.test" "443" 0 none
      (GoError.external 4 "remote error: tls: handshake failure")
      (by decide)).1.trans (by decide),
   (cipher_probe_failure_classified (scriptedEnv demoServer) 0x1301
      "example.test" "443" 0 none
      (GoError.external 5 "remote error: tls: protocol version not supported")
      (by decide)).2.1 (by decide)⟩

/-- C4: when the handshake succeeds, `doesServerSupportCipherForTLSOneDotTwo`
returns `(true, nil)` if the negotiated cipher suite equals the requested one and
`(false, err)` with `err` non-nil if it differs; hence it returns `(true, nil)`
if and only if the handshake succeeded and negotiated exactly that suite. -/
theorem cipher_probe_supported_iff {σ : Type} (env : Env σ) (cipher : Nat)
    (host port : String) (s : σ) :
    (∀ conn, (env.Dial s "tcp" (host ++ ":" ++ port) (cipherConfig cipher)).1
          = DialResult.connected conn →
      (conn.ConnectionState.CipherSuite = cipher →
        (doesServerSupportCipherForTLSOneDotTwo env cipher host port s).ret = (true, none)) ∧
      (conn.ConnectionState.CipherSuite ≠ cipher →
        ∃ err, (doesServerSupportCipherForTLSOneDotTwo env cipher host port s).ret
          = (false, some err))) ∧
    ((doesServerSupportCipherForTLSOneDotTwo env cipher host port s).ret = (true, none) ↔
      ∃ conn, (env.Dial s "tcp" (host ++ ":" ++ port) (cipherConfig cipher)).1
          = DialResult.connected conn ∧ conn.ConnectionState.CipherSuite = cipher) := by
  constructor
  · intro conn h
    rw [cipher_ret_connected env cipher host port s conn h]
    constructor
    · intro hc
      rw [if_pos hc.symm]
    · intro hc
      rw [if_neg (fun h1 => hc h1.symm)]
      exact ⟨_, rfl⟩
  · cases h : (env.Dial s "tcp" (host ++ ":" ++ port) (cipherConfig cipher)).1 with
    | connected conn =>
      rw [cipher_ret_connected env cipher host port s conn h]
      by_cases hc : cipher = conn.ConnectionState.CipherSuite
      · simp [← hc]
      · have hc1 : ¬ conn.ConnectionState.CipherSuite = cipher := fun h1 => hc h1.symm
        simp [hc, hc1]
    | failed conn err =>
      rw [cipher_ret_failed env cipher host port s conn err h]
      constructor
      · intro hret
        split at hret <;> simp at hret
      · rintro ⟨c, hc, _⟩
        simp at hc

/-- Witness of C4: the requested suite negotiated is "supported"; another suite
negotiated is an error. -/
theorem cipher_probe_supported_iff_witness :
    (doesServerSupportCipherForTLSOneDotTwo (scriptedEnv demoServer) 0xC02F
        "example.test" "443" 0).ret = (true, none) ∧
    (∃ err, (doesServerSupportCipherForTLSOneDotTwo (scriptedEnv demoServer) 0x0005
        "example.test" "443" 0).ret = (false, some err)) :=
  ⟨((cipher_probe_supported_iff (scriptedEnv demoServer) 0xC02F
      "example.test" "443" 0).1
      { id := 0, state := { Version := VersionTLS12, CipherSuite := 0xC02F } }
      (by decide)).1 (by decide),
   ((cipher_probe_supported_iff (scriptedEnv demoServer) 0x0005
      "example.test" "443" 0).1
      { id := 0, state := { Version := VersionTLS12, CipherSuite := 0xC02F } }
      (by decide)).2 (by decide)⟩

/-- C8: in both probers every connection that `tls.Dial` returns is closed
exactly once before the prober returns, whichever branch is taken, and no other
connection is closed; over a transport that counts, the number of open
connections after a probe equals the number before it. -/
theorem probe_closes_every_connection {σ : Type} (env : Env σ) (tlsVersion cipher : Nat)
    (host port : String) (s : σ) (opens closes : Nat) :
    (opened (doesServerSupportTLSVersion env tlsVersion host port s).trace
        = (env.Dial s "tcp" (host ++ ":" ++ port) (versionConfig tlsVersion)).1.conn.toList ∧
      closed (doesServerSupportTLSVersion env tlsVersion host port s).trace
        = opened (doesServerSupportTLSVersion env tlsVersion host port s).trace ∧
      (∀ c ∈ opened (doesServerSupportTLSVersion env tlsVersion host port s).trace,
        (closed (doesServerSupportTLSVersion env tlsVersion host port s).trace).count c = 1) ∧
      openConnections
          (doesServerSupportTLSVersion (countingEnv env) tlsVersion host port
            (s, opens, closes)).net
        = openConnections (s, opens, closes)) ∧
    (opened (doesServerSupportCipherForTLSOneDotTwo env cipher host port s).trace
        = (env.Dial s "tcp" (host ++ ":" ++ port) (cipherConfig cipher)).1.conn.toList ∧
      closed (doesServerSupportCipherForTLSOneDotTwo env cipher host port s).trace
        = opened (doesServerSupportCipherForTLSOneDotTwo env cipher host port s).trace ∧
      (∀ c ∈ opened (doesServerSupportCipherForTLSOneDotTwo env cipher host port s).trace,
        (closed (doesServerSupportCipherForTLSOneDotTwo env cipher host port s).trace).count c
          = 1) ∧
      openConnections
          (doesServerSupportCipherForTLSOneDotTwo (countingEnv env) cipher host port
            (s, opens, closes)).net
        = openConnections (s, opens, closes)) := by
  have hv : opened (doesServerSupportTLSVersion env tlsVersion host port s).trace
      = (env.Dial s "tcp" (host ++ ":" ++ port) (versionConfig tlsVersion)).1.conn.toList := by
    rw [version_trace]
    simp [opened, opened_map_close]
  have hvc : closed (doesServerSupportTLSVersion env tlsVersion host port s).trace
      = (env.Dial s "tcp" (host ++ ":" ++ port) (versionConfig tlsVersion)).1.conn.toList := by
    rw [version_trace]
    simp [closed, closed_map_close]
  have hc : opened (doesServerSupportCipherForTLSOneDotTwo env cipher host port s).trace
      = (env.Dial s "tcp" (host ++ ":" ++ port) (cipherConfig cipher)).1.conn.toList := by
    rw [cipher_trace]
    simp [opened, opened_map_close]
  have hcc : closed (doesServerSupportCipherForTLSOneDotTwo env cipher host port s).trace
      = (env.Dial s "tcp" (host ++ ":" ++ port) (cipherConfig cipher)).1.conn.toList := by
    rw [cipher_trace]
    simp [closed, closed_map_close]
  refine ⟨⟨hv, hvc.trans hv.symm, ?_, ?_⟩, ⟨hc, hcc.trans hc.symm, ?_, ?_⟩⟩
  · intro c hmem
    rw [hvc]
    rw [hv] at hmem
    exact count_toList_self _ c hmem
  · rw [counting_version_net]
    simp only [openConnections]
    push_cast
    ring
  · intro c hmem
    rw [hcc]
    rw [hc] at hmem
    exact count_toList_self _ c hmem
  · rw [counting_cipher_net]
    simp only [openConnections]
    push_cast
    ring

/-- Witness of C8: a supported probe and a mismatched one each open one
connection and close it; three connections open before are three open after. -/
theorem probe_closes_every_connection_witness :
    closed (doesServerSupportTLSVersion (scriptedEnv demoServer) VersionTLS12
        "example.test" "443" 7).trace
      = [{ id := 7, state := { Version := VersionTLS12, CipherSuite := 0xC02F } }] ∧
    closed (doesServerSupportCipherForTLSOneDotTwo (scriptedEnv demoServer) 0x0005
        "example.test" "443" 7).trace
      = [{ id := 7, state := { Version := VersionTLS12, CipherSuite := 0xC02F } }] ∧
    openConnections
        (doesServerSupportTLSVersion (countingEnv (scriptedEnv demoServer)) VersionTLS12
          "example.test" "443" (7, 5, 2)).net = 3 :=
  ⟨((probe_closes_every_connection (scriptedEnv demoServer) VersionTLS12 0x0005
      "example.test" "443" 7 5 2).1.2.1.trans
      (probe_closes_every_connection (scriptedEnv demoServer) VersionTLS12 0x0005
        "example.test" "443" 7 5 2).1.1).trans (by decide),
   ((probe_closes_every_connection (scriptedEnv demoServer) VersionTLS12 0x0005
      "example.test" "443" 7 5 2).2.2.1.trans
      (probe_closes_every_connection (scriptedEnv demoServer) VersionTLS12 0x0005
        "example.test" "443" 7 5 2).2.1).trans (by decide),
   (probe_closes_every_connection (scriptedEnv demoServer) VersionTLS12 0x0005
      "example.test" "443" 7 5 2).1.2.2.2.trans (by decide)⟩

/-- C9: each prober calls `tls.Dial` exactly once, from the network state it
was started in, on network "tcp" and address `host:port`:
`doesServerSupportTLSVersion` passes `MinVersion = MaxVersion =` the version, no
cipher list and `InsecureSkipVerify = true`;
`doesServerSupportCipherForTLSOneDotTwo` passes `MinVersion = MaxVersion =`
TLS 1.2 (0x0303), the cipher list holding exactly the cipher and
`InsecureSkipVerify = true`.  The calls a prober makes are that one `tls.Dial`,
answered by the primitive, followed by the `Close` of the connection it
returned, if any, and the network is left as that one `tls.Dial` and that
`Close` leave it. -/
theorem probe_dials_once_pinned {σ : Type} (env : Env σ) (tlsVersion cipher : Nat)
    (host port : String) (s : σ) :
    ((doesServerSupportTLSVersion env tlsVersion host port s).trace =
        Event.dial "tcp" (host ++ ":" ++ port)
            { MinVersion := tlsVersion, MaxVersion := tlsVersion, CipherSuites := [],
              InsecureSkipVerify := true }
            (env.Dial s "tcp" (host ++ ":" ++ port)
              { MinVersion := tlsVersion, MaxVersion := tlsVersion, CipherSuites := [],
                InsecureSkipVerify := true }).1 ::
          ((env.Dial s "tcp" (host ++ ":" ++ port)
              { MinVersion := tlsVersion, MaxVersion := tlsVersion, CipherSuites := [],
                InsecureSkipVerify := true }).1.conn.toList.map Event.close) ∧
      (doesServerSupportTLSVersion env tlsVersion host port s).net =
        (match (env.Dial s "tcp" (host ++ ":" ++ port)
              { MinVersion := tlsVersion, MaxVersion := tlsVersion, CipherSuites := [],
                InsecureSkipVerify := true }).1.conn with
          | some conn =>
            env.Close (env.Dial s "tcp" (host ++ ":" ++ port)
              { MinVersion := tlsVersion, MaxVersion := tlsVersion, CipherSuites := [],
                InsecureSkipVerify := true }).2 conn
          | none =>
            (env.Dial s "tcp" (host ++ ":" ++ port)
              { MinVersion := tlsVersion, MaxVersion := tlsVersion, CipherSuites := [],
                InsecureSkipVerify := true }).2) ∧
      dialCalls (doesServerSupportTLSVersion env tlsVersion host port s).trace =
        [("tcp", host ++ ":" ++ port,
          { MinVersion := tlsVersion, MaxVersion := tlsVersion, CipherSuites := [],
            InsecureSkipVerify := true })]) ∧
    ((doesServerSupportCipherForTLSOneDotTwo env cipher host port s).trace =
        Event.dial "tcp" (host ++ ":" ++ port)
            { MinVersion := 0x0303, MaxVersion := 0x0303, CipherSuites := [cipher],
              InsecureSkipVerify := true }
            (env.Dial s "tcp" (host ++ ":" ++ port)
              { MinVersion := 0x0303, MaxVersion := 0x0303, CipherSuites := [cipher],
                InsecureSkipVerify := true }).1 ::
          ((env.Dial s "tcp" (host ++ ":" ++ port)
              { MinVersion := 0x0303, MaxVersion := 0x0303, CipherSuites := [cipher],
                InsecureSkipVerify := true }).1.conn.toList.map Event.close) ∧
      (doesServerSupportCipherForTLSOneDotTwo env cipher host port s).net =
        (match (env.Dial s "tcp" (host ++ ":" ++ port)
              { MinVersion := 0x0303, MaxVersion := 0x0303, CipherSuites := [cipher],
                InsecureSkipVerify := true }).1.conn with
          | some conn =>
            env.Close (env.Dial s "tcp" (host ++ ":" ++ port)
              { MinVersion := 0x0303, MaxVersion := 0x0303, CipherSuites := [cipher],
                InsecureSkipVerify := true }).2 conn
          | none =>
            (env.Dial s "tcp" (host ++ ":" ++ port)
              { MinVersion := 0x0303, MaxVersion := 0x0303, CipherSuites := [cipher],
                InsecureSkipVerify := true }).2) ∧
      dialCalls (doesServerSupportCipherForTLSOneDotTwo env cipher host port s).trace =
        [("tcp", host ++ ":" ++ port,
          { MinVersion := 0x0303, MaxVersion := 0x0303, CipherSuites := [cipher],
            InsecureSkipVerify := true })]) := by
  refine ⟨⟨version_trace env tlsVersion host port s, version_net env tlsVersion host port s, ?_⟩,
    ⟨cipher_trace env cipher host port s, cipher_net env cipher host port s, ?_⟩⟩
  · rw [version_trace]
    simp [dialCalls, dialCalls_map_close, versionConfig]
  · rw [cipher_trace]
    simp [dialCalls, dialCalls_map_close, cipherConfig, VersionTLS12]

/-- Witness of C9: the one handshake of a probe of TLS 1.2 and of the suite
0x000A against example.test:443, over a transport whose state counts the
handshakes attempted: three before the probe, four after it. -/
theorem probe_dials_once_pinned_witness :
    (doesServerSupportTLSVersion (scriptedEnv demoServer) 0x0303
        "example.test" "443" 3).trace =
      [Event.dial "tcp" "example.test:443"
          { MinVersion := 0x0303, MaxVersion := 0x0303, CipherSuites := [],
            InsecureSkipVerify := true }
          (DialResult.connected
            { id := 3, state := { Version := 0x0303, CipherSuite := 0xC02F } }),
        Event.close { id := 3, state := { Version := 0x0303, CipherSuite := 0xC02F } }] ∧
    (doesServerSupportTLSVersion (scriptedEnv demoServer) 0x0303
        "example.test" "443" 3).net = 4 ∧
    (doesServerSupportCipherForTLSOneDotTwo (scriptedEnv demoServer) 0x000A
        "example.test" "443" 3).trace =
      [Event.dial "tcp" "example.test:443"
          { MinVersion := 0x0303, MaxVersion := 0x0303, CipherSuites := [0x000A],
            InsecureSkipVerify := true }
          (DialResult.failed none
            (GoError.external 4 "remote error: tls: handshake failure"))] ∧
    (doesServerSupportCipherForTLSOneDotTwo (scriptedEnv demoServer) 0x000A
        "example.test" "443" 3).net = 4 ∧
    dialCalls (doesServerSupportCipherForTLSOneDotTwo (scriptedEnv demoServer) 0x000A
        "example.test" "443" 3).trace =
      [("tcp", "example.test:443",
        { MinVersion := 0x0303, MaxVersion := 0x0303, CipherSuites := [0x000A],
          InsecureSkipVerify := true })] :=
  ⟨(probe_dials_once_pinned (scriptedEnv demoServer) 0x0303 0x000A
      "example.test" "443" 3).1.1.trans (by decide),
   (probe_dials_once_pinned (scriptedEnv demoServer) 0x0303 0x000A
      "example.test" "443" 3).1.2.1.trans (by decide),
   (probe_dials_once_pinned (scriptedEnv demoServer) 0x0303 0x000A
      "example.test" "443" 3).2.1.trans (by decide),
   (probe_dials_once_pinned (scriptedEnv demoServer) 0x0303 0x000A
      "example.test" "443" 3).2.2.1.trans (by decide),
   (probe_dials_once_pinned (scriptedEnv demoServer) 0x0303 0x000A
      "example.test" "443" 3).2.2.2.trans (by decide)⟩

/-- C10: each prober returns exactly one of `(true, nil)`, `(false, nil)` and
`(false, err)` with `err` non-nil; neither ever returns `true` together with a
non-nil error. -/
theorem probe_outcome_ternary {σ : Type} (env : Env σ) (tlsVersion cipher : Nat)
    (host port : String) (s : σ) :
    ((doesServerSupportTLSVersion env tlsVersion host port s).ret = (true, none) ∨
      (doesServerSupportTLSVersion env tlsVersion host port s).ret = (false, none) ∨
      ∃ err, (doesServerSupportTLSVersion env tlsVersion host port s).ret
        = (false, some err)) ∧
    (∀ err, (doesServerSupportTLSVersion env tlsVersion host port s).ret
        ≠ (true, some err)) ∧
    ((doesServerSupportCipherForTLSOneDotTwo env cipher host port s).ret = (true, none) ∨
      (doesServerSupportCipherForTLSOneDotTwo env cipher host port s).ret = (false, none) ∨
      ∃ err, (doesServerSupportCipherForTLSOneDotTwo env cipher host port s).ret
        = (false, some err)) ∧
    (∀ err, (doesServerSupportCipherForTLSOneDotTwo env cipher host port s).ret
        ≠ (true, some err)) := by
  refine ⟨version_ret_shape env tlsVersion host port s, ?_,
    cipher_ret_shape env cipher host port s, ?_⟩
  · intro err h
    have h1 := version_true_no_error env tlsVersion host port s (by rw [h])
    rw [h] at h1
    simp at h1
  · intro err h
    have h1 := cipher_true_no_error env cipher host port s (by rw [h])
    rw [h] at h1
    simp at h1

/-- Witness of C10: the three outcomes, each returned by a probe of the
demonstration server. -/
theorem probe_outcome_ternary_witness :
    (doesServerSupportTLSVersion (scriptedEnv demoServer) VersionTLS12
        "example.test" "443" 0).ret = (true, none) ∧
    (doesServerSupportCipherForTLSOneDotTwo (scriptedEnv demoServer) 0x000A
        "example.test" "443" 0).ret = (false, none) ∧
    (∀ err, (doesServerSupportTLSVersion (scriptedEnv stubbornServer) VersionTLS13
        "example.test" "443" 0).ret ≠ (true, some err)) :=
  ⟨by decide, by decide,
   (probe_outcome_ternary (scriptedEnv stubbornServer) VersionTLS13 0x000A
      "example.test" "443" 0).2.1⟩

theorem versionRuns_ret {σ : Type} (env : Env σ) (host port : String)
    (candidates : List Nat) (s : σ) :
    (versionRuns env host port candidates s).map Run.ret
      = versionOutcomes env host port candidates s := by
  induction candidates generalizing s with
  | nil => rfl
  | cons v rest ih => simp [versionRuns, versionOutcomes, ih]

theorem cipherRuns_ret {σ : Type} (env : Env σ) (host port : String)
    (candidates : List Nat) (s : σ) :
    (cipherRuns env host port candidates s).map Run.ret
      = cipherOutcomes env host port candidates s := by
  induction candidates generalizing s with
  | nil => rfl
  | cons c rest ih => simp [cipherRuns, cipherOutcomes, ih]

theorem versionLoop_net {σ : Type} (env : Env σ) (host port : String)
    (candidates acc : List Nat) (s : σ) :
    (versionLoop env host port candidates acc s).net =
      (versionRuns env host port candidates s).foldl (fun _ run => run.net) s := by
  induction candidates generalizing acc s with
  | nil => rfl
  | cons v rest ih => simp only [versionLoop, versionRuns, List.foldl_cons, ih]

theorem cipherLoop_net {σ : Type} (env : Env σ) (host port : String)
    (candidates acc : List Nat) (s : σ) :
    (cipherLoop env host port candidates acc s).net =
      (cipherRuns env host port candidates s).foldl (fun _ run => run.net) s := by
  induction candidates generalizing acc s with
  | nil => rfl
  | cons c rest ih => simp only [cipherLoop, cipherRuns, List.foldl_cons, ih]

theorem versionLoop_trace {σ : Type} (env : Env σ) (host port : String)
    (candidates acc : List Nat) (s : σ) :
    (versionLoop env host port candidates acc s).trace =
      ((candidates.zip (versionRuns env host port candidates s)).map (fun p =>
        p.2.trace ++
          (match p.2.ret with
            | (false, some err) => [Event.printf (versionDiagnostic env p.1 err)]
            | _ => []))).flatten := by
  induction candidates generalizing acc s with
  | nil => simp [versionLoop, versionRuns]
  | cons v rest ih =>
    simp only [versionLoop, versionRuns, List.zip_cons_cons, List.map_cons,
      List.flatten_cons, ih, List.append_assoc]
    rcases version_ret_shape env v host port s with h | h | ⟨err, h⟩ <;> simp [h]

theorem cipherLoop_trace {σ : Type} (env : Env σ) (host port : String)
    (candidates acc : List Nat) (s : σ) :
    (cipherLoop env host port candidates acc s).trace =
      ((candidates.zip (cipherRuns env host port candidates s)).map (fun p =>
        p.2.trace ++
          (match p.2.ret with
            | (false, some err) => [Event.printf (cipherDiagnostic env p.1 err)]
            | _ => []))).flatten := by
  induction candidates generalizing acc s with
  | nil => simp [cipherLoop, cipherRuns]
  | cons c rest ih =>
    simp only [cipherLoop, cipherRuns, List.zip_cons_cons, List.map_cons,
      List.flatten_cons, ih, List.append_assoc]
    rcases cipher_ret_shape env c host port s with h | h | ⟨err, h⟩ <;> simp [h]

/-! ## The scanners: claims -/

/-- C5: the report of each scanner holds exactly the candidates whose probe
returned `(true, nil)`, position by position: a candidate is in the report if
and only if a probe of it returned exactly "supported", so every supported
candidate appears and a candidate whose probe returned `(false, nil)` or a
non-nil error does not (the candidates of a list being distinct). -/
theorem report_exactly_supported {σ : Type} (env : Env σ) (host port : String) (s : σ) :
    ((versionOutcomes env host port allTLSVersions s).length = allTLSVersions.length ∧
      (determineServerSupportedTLSVersions env host port s).ret
        = supportedOnly allTLSVersions (versionOutcomes env host port allTLSVersions s) ∧
      (∀ v, v ∈ (determineServerSupportedTLSVersions env host port s).ret ↔
        (v, (true, none)) ∈
          allTLSVersions.zip (versionOutcomes env host port allTLSVersions s)) ∧
      (∀ v o, (v, o) ∈ allTLSVersions.zip (versionOutcomes env host port allTLSVersions s) →
        o ≠ (true, none) →
        v ∉ (determineServerSupportedTLSVersions env host port s).ret)) ∧
    ((cipherOutcomes env host port (allCiphers env) s).length = (allCiphers env).length ∧
      (determineServerSupportedCipherSuitesForTLSOneDotTwo env host port s).ret
        = supportedOnly (allCiphers env) (cipherOutcomes env host port (allCiphers env) s) ∧
      (∀ c, c ∈ (determineServerSupportedCipherSuitesForTLSOneDotTwo env host port s).ret ↔
        (c, (true, none)) ∈
          (allCiphers env).zip (cipherOutcomes env host port (allCiphers env) s)) ∧
      ((allCiphers env).Nodup →
        ∀ c o, (c, o) ∈ (allCiphers env).zip (cipherOutcomes env host port (allCiphers env) s) →
          o ≠ (true, none) →
          c ∉ (determineServerSupportedCipherSuitesForTLSOneDotTwo env host port s).ret)) := by
  have hv : (determineServerSupportedTLSVersions env host port s).ret
      = supportedOnly allTLSVersions (versionOutcomes env host port allTLSVersions s) := by
    unfold determineServerSupportedTLSVersions
    rw [versionLoop_ret, List.nil_append]
  have hc : (determineServerSupportedCipherSuitesForTLSOneDotTwo env host port s).ret
      = supportedOnly (allCiphers env) (cipherOutcomes env host port (allCiphers env) s) := by
    unfold determineServerSupportedCipherSuitesForTLSOneDotTwo
    rw [cipherLoop_ret, List.nil_append]
  refine ⟨⟨versionOutcomes_length env host port allTLSVersions s, hv, ?_, ?_⟩,
    ⟨cipherOutcomes_length env host port (allCiphers env) s, hc, ?_, ?_⟩⟩
  · intro v
    rw [hv]
    exact mem_supportedOnly _ _ v
  · intro v o hmem ho
    rw [hv]
    exact not_mem_supportedOnly _ _ allTLSVersions_nodup v o hmem ho
  · intro c
    rw [hc]
    exact mem_supportedOnly _ _ c
  · intro hnodup c o hmem ho
    rw [hc]
    exact not_mem_supportedOnly _ _ hnodup c o hmem ho

/-- Witness of C5: against the demonstration server only TLS 1.2 and only the
suite 0xC02F are reported; TLS 1.1, whose probe returned an error, is not. -/
theorem report_exactly_supported_witness :
    (determineServerSupportedTLSVersions (scriptedEnv demoServer)
        "example.test" "443" 0).ret = [VersionTLS12] ∧
    (determineServerSupportedCipherSuitesForTLSOneDotTwo (scriptedEnv demoServer)
        "example.test" "443" 0).ret = [0xC02F] ∧
    VersionTLS11 ∉ (determineServerSupportedTLSVersions (scriptedEnv demoServer)
        "example.test" "443" 0).ret :=
  ⟨(report_exactly_supported (scriptedEnv demoServer)
      "example.test" "443" 0).1.2.1.trans (by decide),
   (report_exactly_supported (scriptedEnv demoServer)
      "example.test" "443" 0).2.2.1.trans (by decide),
   (report_exactly_supported (scriptedEnv demoServer)
      "example.test" "443" 0).1.2.2.2 VersionTLS11
      (false, some (GoError.external 2 "dial tcp: lookup host.invalid: no such host"))
      (by decide) (by decide)⟩

/-- C6: the report of the version scan has no duplicate and is a subsequence of
the candidate order, which is TLS 1.0, TLS 1.1, TLS 1.2, TLS 1.3; when only the
second and third candidates are supported the report is exactly
TLS 1.1, TLS 1.2.  The report of the cipher scan is a subsequence of the cipher
list, and has no duplicate when the library's cipher list has none. -/
theorem report_subsequence_of_candidates {σ : Type} (env : Env σ) (host port : String)
    (s : σ) :
    (determineServerSupportedTLSVersions env host port s).ret.Nodup ∧
    (determineServerSupportedTLSVersions env host port s).ret.Sublist allTLSVersions ∧
    allTLSVersions = [0x0301, 0x0302, 0x0303, 0x0304] ∧
    (∀ o1 o4, versionOutcomes env host port allTLSVersions s
        = [o1, (true, none), (true, none), o4] →
      o1 ≠ (true, none) → o4 ≠ (true, none) →
      (determineServerSupportedTLSVersions env host port s).ret = [0x0302, 0x0303]) ∧
    (determineServerSupportedCipherSuitesForTLSOneDotTwo env host port s).ret.Sublist
      (allCiphers env) ∧
    ((allCiphers env).Nodup →
      (determineServerSupportedCipherSuitesForTLSOneDotTwo env host port s).ret.Nodup) := by
  have hv : (determineServerSupportedTLSVersions env host port s).ret
      = supportedOnly allTLSVersions (versionOutcomes env host port allTLSVersions s) := by
    unfold determineServerSupportedTLSVersions
    rw [versionLoop_ret, List.nil_append]
  have hc : (determineServerSupportedCipherSuitesForTLSOneDotTwo env host port s).ret
      = supportedOnly (allCiphers env) (cipherOutcomes env host port (allCiphers env) s) := by
    unfold determineServerSupportedCipherSuitesForTLSOneDotTwo
    rw [cipherLoop_ret, List.nil_append]
  have hvs := supportedOnly_sublist allTLSVersions
    (versionOutcomes env host port allTLSVersions s)
  have hcs := supportedOnly_sublist (allCiphers env)
    (cipherOutcomes env host port (allCiphers env) s)
  refine ⟨?_, ?_, rfl, ?_, ?_, ?_⟩
  · rw [hv]
    exact hvs.nodup allTLSVersions_nodup
  · rw [hv]
    exact hvs
  · intro o1 o4 houts h1 h4
    rw [hv, houts]
    simp [allTLSVersions, supportedOnly, List.filter_cons, h1, h4, VersionTLS11, VersionTLS12]
  · rw [hc]
    exact hcs
  · intro hnodup
    rw [hc]
    exact hcs.nodup hnodup

/-- Witness of C6: a server that accepts TLS 1.1 and TLS 1.2 only. -/
theorem report_subsequence_of_candidates_witness :
    (determineServerSupportedTLSVersions (scriptedEnv middleServer)
        "example.test" "443" 0).ret = [0x0302, 0x0303] :=
  (report_subsequence_of_candidates (scriptedEnv middleServer)
      "example.test" "443" 0).2.2.2.1 (false, none) (false, none)
    (by decide) (by decide) (by decide)

/-- C7: a scan never aborts early: it runs the prober once for every candidate
of its list, in list order, each run starting where the previous one left the
network, whatever the earlier outcomes; the calls the scan makes are, candidate
by candidate, those of the run for that candidate followed, when its outcome is
an error `(false, err)`, by one printed line, and by nothing for a supported or
unsupported candidate.  The line printed for a version is
"error checking if server supports TLS version %q: %s\n" and for a cipher
"error checking if server supports cipher suites %q: %s\n", filled with the
quoted name of that candidate and the text of its error. -/
theorem scan_probes_every_candidate {σ : Type} (env : Env σ) (host port : String) (s : σ) :
    ((versionOutcomes env host port allTLSVersions s).length = allTLSVersions.length ∧
      (versionRuns env host port allTLSVersions s).map Run.ret
        = versionOutcomes env host port allTLSVersions s ∧
      (determineServerSupportedTLSVersions env host port s).trace
        = ((allTLSVersions.zip (versionRuns env host port allTLSVersions s)).map (fun p =>
            p.2.trace ++
              (match p.2.ret with
                | (false, some err) =>
                  [Event.printf ("error checking if server supports TLS version "
                    ++ env.quote (env.VersionName p.1) ++ ": " ++ err.Error ++ "\n")]
                | _ => []))).flatten ∧
      (determineServerSupportedTLSVersions env host port s).net
        = (versionRuns env host port allTLSVersions s).foldl (fun _ run => run.net) s ∧
      dialCalls (determineServerSupportedTLSVersions env host port s).trace
        = allTLSVersions.map (fun v => ("tcp", host ++ ":" ++ port, versionConfig v)) ∧
      printed (determineServerSupportedTLSVersions env host port s).trace
        = errorLines
            (fun v err => "error checking if server supports TLS version "
              ++ env.quote (env.VersionName v) ++ ": " ++ err.Error ++ "\n")
            allTLSVersions (versionOutcomes env host port allTLSVersions s)) ∧
    ((cipherOutcomes env host port (allCiphers env) s).length = (allCiphers env).length ∧
      (cipherRuns env host port (allCiphers env) s).map Run.ret
        = cipherOutcomes env host port (allCiphers env) s ∧
      (determineServerSupportedCipherSuitesForTLSOneDotTwo env host port s).trace
        = (((allCiphers env).zip (cipherRuns env host port (allCiphers env) s)).map (fun p =>
            p.2.trace ++
              (match p.2.ret with
                | (false, some err) =>
                  [Event.printf ("error checking if server supports cipher suites "
                    ++ env.quote (env.CipherSuiteName p.1) ++ ": " ++ err.Error ++ "\n")]
                | _ => []))).flatten ∧
      (determineServerSupportedCipherSuitesForTLSOneDotTwo env host port s).net
        = (cipherRuns env host port (allCiphers env) s).foldl (fun _ run => run.net) s ∧
      dialCalls (determineServerSupportedCipherSuitesForTLSOneDotTwo env host port s).trace
        = (allCiphers env).map (fun c => ("tcp", host ++ ":" ++ port, cipherConfig c)) ∧
      printed (determineServerSupportedCipherSuitesForTLSOneDotTwo env host port s).trace
        = errorLines
            (fun c err => "error checking if server supports cipher suites "
              ++ env.quote (env.CipherSuiteName c) ++ ": " ++ err.Error ++ "\n")
            (allCiphers env) (cipherOutcomes env host port (allCiphers env) s)) :=
  ⟨⟨versionOutcomes_length env host port allTLSVersions s,
    versionRuns_ret env host port allTLSVersions s,
    versionLoop_trace env host port allTLSVersions [] s,
    versionLoop_net env host port allTLSVersions [] s,
    versionLoop_dialCalls env host port allTLSVersions [] s,
    versionLoop_printed env host port allTLSVersions [] s⟩,
   ⟨cipherOutcomes_length env host port (allCiphers env) s,
    cipherRuns_ret env host port (allCiphers env) s,
    cipherLoop_trace env host port (allCiphers env) [] s,
    cipherLoop_net env host port (allCiphers env) [] s,
    cipherLoop_dialCalls env host port (allCiphers env) [] s,
    cipherLoop_printed env host port (allCiphers env) [] s⟩⟩

/-- Witness of C7: an error for TLS 1.1 and "supported" for TLS 1.2 give one
diagnostic line, for TLS 1.1, and the fourth handshake, pinned to TLS 1.3, is
still attempted: the transport has counted four handshakes when the scan
returns.  The report is TLS 1.2 alone. -/
theorem scan_probes_every_candidate_witness :
    printed (determineServerSupportedTLSVersions (scriptedEnv demoServer)
        "example.test" "443" 0).trace
      = ["error checking if server supports TLS version \"version 770\": "
          ++ "dial tcp: lookup host.invalid: no such host\n"] ∧
    dialCalls (determineServerSupportedTLSVersions (scriptedEnv demoServer)
        "example.test" "443" 0).trace
      = [("tcp", "example.test:443", versionConfig VersionTLS10),
         ("tcp", "example.test:443", versionConfig VersionTLS11),
         ("tcp", "example.test:443", versionConfig VersionTLS12),
         ("tcp", "example.test:443", versionConfig VersionTLS13)] ∧
    (determineServerSupportedTLSVersions (scriptedEnv demoServer)
        "example.test" "443" 0).net = 4 ∧
    printed (determineServerSupportedCipherSuitesForTLSOneDotTwo (scriptedEnv demoServer)
        "example.test" "443" 0).trace
      = ["error checking if server supports cipher suites \"suite 4865\": "
          ++ "remote error: tls: protocol version not supported\n",
         "error checking if server supports cipher suites \"suite 5\": "
          ++ "client negotiated unexpected cipher suite suite 49199, "
          ++ "expected cipher suite suite 5\n"] ∧
    (determineServerSupportedTLSVersions (scriptedEnv demoServer)
        "example.test" "443" 0).ret = [VersionTLS12] :=
  ⟨(scan_probes_every_candidate (scriptedEnv demoServer)
      "example.test" "443" 0).1.2.2.2.2.2.trans (by decide),
   (scan_probes_every_candidate (scriptedEnv demoServer)
      "example.test" "443" 0).1.2.2.2.2.1.trans (by decide),
   (scan_probes_every_candidate (scriptedEnv demoServer)
      "example.test" "443" 0).1.2.2.2.1.trans (by decide),
   (scan_probes_every_candidate (scriptedEnv demoServer)
      "example.test" "443" 0).2.2.2.2.2.2.trans (by decide),
   by decide⟩

end TLSProbe
